import Mathlib

/-!
Shallow embedding of `token_auto_update_client.go`: the credential state of
`TokenAutoUpdateClient`, the debounced and backoff-protected fetch routine
`fetchSTSToken`, the background refresh loop `flushSTSToken`, and the
retry-on-token-error loop that wraps every forwarded operation
(`CreateProject` and the other methods all share the identical pattern
`for i := 0; i < c.maxTryTimes; i++ { ...; if !c.processError(err) { return } }`).

Times and durations are modelled as integer nanoseconds (Go `time.Time`
and `time.Duration` arithmetic), external collaborators (the token issuer
`tokenUpdateFunc`, the wrapped operation of `logClient`, the select on the
timer/shutdown channels) as explicit inputs, and each method as a pure
function from the pre-state and those inputs to the post-state and its
observable effects.
-/

namespace Sls

/-- Go `time.Second` in nanoseconds. -/
def second : Int := 1000000000

/-- Go `time.Minute` in nanoseconds. -/
def minute : Int := 60 * second

/-- Go `time.Hour` in nanoseconds. -/
def hour : Int := 60 * minute

/-- Constructor-time configuration of `TokenAutoUpdateClient`
(fields `maxTryTimes`, `waitIntervalMin`, `waitIntervalMax`,
`updateTokenIntervalMin` of the Go struct). -/
structure TokenClientConfig where
  maxTryTimes : Int
  waitIntervalMin : Int
  waitIntervalMax : Int
  updateTokenIntervalMin : Int
  deriving DecidableEq

/-- Mutable state of `TokenAutoUpdateClient` guarded by its lock
(`lastFetch`, `lastRetryFailCount`, `lastRetryInterval`, `nextExpire`),
together with `clientToken`: the credential currently stored in the
underlying `logClient`, written by `ResetAccessKeyToken`. -/
structure TokenClientState where
  lastFetch : Int
  lastRetryFailCount : Int
  lastRetryInterval : Int
  nextExpire : Int
  clientToken : Option (String × String × String)
  deriving DecidableEq

/-- Zero value of the Go struct fields: zero times and zero counters. -/
def initialState : TokenClientState :=
  { lastFetch := 0, lastRetryFailCount := 0, lastRetryInterval := 0,
    nextExpire := 0, clientToken := none }

/-- Outcome of one call of the external issuer `c.tokenUpdateFunc()`:
either the credential triple with its expire time, or an error. -/
inductive FetchResult where
  | success (accessKeyID accessKeySecret securityToken : String) (expireTime : Int)
  | failure
  deriving DecidableEq

/-- Return value of `fetchSTSToken`: `nil`, the debounce error
`errSTSFetchHighFrequency`, or the issuer's error passed through. -/
inductive FetchCode where
  | ok
  | highFrequency
  | fetchError
  deriving DecidableEq

/-- Full observable effect of one `fetchSTSToken` call: the post-state,
the returned error, whether `tokenUpdateFunc` was invoked, and the
duration slept before the call. -/
structure FetchOutput where
  state : TokenClientState
  code : FetchCode
  issuerCalled : Bool
  sleepTime : Int
  deriving DecidableEq

/-- Backoff update performed at the start of a retried fetch
(lines 85-91 of the Go source): double `lastRetryInterval`, raise it to
`waitIntervalMin` if below, cap it at `waitIntervalMax` if not below. -/
def backoffStep (cfg : TokenClientConfig) (b : Int) : Int :=
  let d0 := b * 2
  let d1 := if d0 < cfg.waitIntervalMin then cfg.waitIntervalMin else d0
  if cfg.waitIntervalMax ≤ d1 then cfg.waitIntervalMax else d1

/-- `fetchSTSToken` (lines 73-122 of the Go source).  If
`now - lastFetch < updateTokenIntervalMin` the call is debounce-skipped:
no state change, no issuer call, error `errSTSFetchHighFrequency`.
Otherwise `lastFetch := now`; if `lastRetryFailCount != 0` the backoff is
doubled and clamped and used as the pre-call sleep; then the issuer runs:
on success the failure count and backoff reset to zero, `nextExpire` is
set to the returned expire time and the credential is pushed into the
underlying client; on failure `lastRetryFailCount` is incremented. -/
def fetchSTSToken (cfg : TokenClientConfig) (c : TokenClientState) (nowTime : Int)
    (res : FetchResult) : FetchOutput :=
  if nowTime - c.lastFetch < cfg.updateTokenIntervalMin then
    { state := c, code := .highFrequency, issuerCalled := false, sleepTime := 0 }
  else
    let cA : TokenClientState :=
      if c.lastRetryFailCount = 0 then { c with lastFetch := nowTime }
      else { c with lastFetch := nowTime,
                    lastRetryInterval := backoffStep cfg c.lastRetryInterval }
    let sleepTime : Int := if c.lastRetryFailCount = 0 then 0 else cA.lastRetryInterval
    match res with
    | .success kid ksec ktok exp =>
        { state := { cA with lastRetryFailCount := 0, lastRetryInterval := 0,
                             nextExpire := exp,
                             clientToken := some (kid, ksec, ktok) },
          code := .ok, issuerCalled := true, sleepTime := sleepTime }
    | .failure =>
        { state := { cA with lastRetryFailCount := cA.lastRetryFailCount + 1 },
          code := .fetchError, issuerCalled := true, sleepTime := sleepTime }

/-- Invariant maintained by `fetchSTSToken`: the failure count is never
negative, and while it is zero the retry backoff is zero. -/
def backoffFailInv (c : TokenClientState) : Prop :=
  0 ≤ c.lastRetryFailCount ∧ (c.lastRetryFailCount = 0 → c.lastRetryInterval = 0)

instance (c : TokenClientState) : Decidable (backoffFailInv c) := by
  unfold backoffFailInv; infer_instance

/-- Concrete configuration used for counterexamples and witnesses:
debounce window 10, backoff clamp range [100, 1000]. -/
def cfg0 : TokenClientConfig :=
  { maxTryTimes := 3, waitIntervalMin := 100, waitIntervalMax := 1000,
    updateTokenIntervalMin := 10 }

/-- A state one failure into a retry streak, backoff already at the
clamp minimum. -/
def sFail1 : TokenClientState :=
  { lastFetch := 0, lastRetryFailCount := 1, lastRetryInterval := 100,
    nextExpire := 0, clientToken := none }

/-- A state holding a credential that expires at time 100. -/
def sExp : TokenClientState :=
  { lastFetch := 0, lastRetryFailCount := 0, lastRetryInterval := 0,
    nextExpire := 100, clientToken := none }

/-- The sequential raise-then-cap written in the Go source equals the
symmetric clamp `min (max (2b) lo) hi`. -/
theorem backoffStep_eq_clamp (cfg : TokenClientConfig) (b : Int) :
    backoffStep cfg b =
      min (max (b * 2) cfg.waitIntervalMin) cfg.waitIntervalMax := by
  unfold backoffStep
  rcases le_or_lt cfg.waitIntervalMin (b * 2) with h | h <;>
    rcases le_or_lt cfg.waitIntervalMax (b * 2) with h2 | h2 <;>
      simp only [min_def, max_def] <;> split_ifs <;> omega

/-- C1 counterexample: from the zeroed initial state, a non-debounced
failing fetch increments the failure count to 1 yet leaves the backoff at
0, while `clamp(previousBackoff * 2, backoffMin, backoffMax)` is 100 under
`cfg0`: the claimed equality fails on the first failure of a streak. -/
theorem C1_counterexample :
    (fetchSTSToken cfg0 initialState 10 .failure).state.lastRetryFailCount =
      initialState.lastRetryFailCount + 1 ∧
    (fetchSTSToken cfg0 initialState 10 .failure).state.lastRetryInterval ≠
      min (max (initialState.lastRetryInterval * 2) cfg0.waitIntervalMin)
        cfg0.waitIntervalMax := by
  decide

/-- C1 (amended): on a non-debounced failing fetch entered with a nonzero
failure count, the backoff observed after the attempt equals
`clamp(previousBackoff * 2, backoffMin, backoffMax)` and the failure count
is incremented; entered with a zero failure count (the first failure after
a success) the backoff is left unchanged, the doubling being applied at
the start of the next non-debounced attempt; and every non-debounced
successful fetch resets the backoff to 0. -/
theorem C1_backoff (cfg : TokenClientConfig) (c : TokenClientState) (nowTime : Int)
    (hrun : ¬ nowTime - c.lastFetch < cfg.updateTokenIntervalMin) :
    (c.lastRetryFailCount ≠ 0 →
      (fetchSTSToken cfg c nowTime .failure).state.lastRetryInterval =
        min (max (c.lastRetryInterval * 2) cfg.waitIntervalMin) cfg.waitIntervalMax ∧
      (fetchSTSToken cfg c nowTime .failure).state.lastRetryFailCount =
        c.lastRetryFailCount + 1) ∧
    (c.lastRetryFailCount = 0 →
      (fetchSTSToken cfg c nowTime .failure).state.lastRetryInterval =
        c.lastRetryInterval) ∧
    (∀ kid ksec ktok exp,
      (fetchSTSToken cfg c nowTime (.success kid ksec ktok exp)).state.lastRetryInterval
        = 0) := by
  refine ⟨fun hne => ?_, fun hz => ?_, fun kid ksec ktok exp => ?_⟩
  · unfold fetchSTSToken
    rw [if_neg hrun, ← backoffStep_eq_clamp]
    simp only [if_neg hne]
    exact ⟨trivial, trivial⟩
  · unfold fetchSTSToken
    rw [if_neg hrun]
    simp only [if_pos hz]
  · unfold fetchSTSToken
    rw [if_neg hrun]

/-- Witness for `C1_backoff` at `cfg0` and `sFail1`: the hypothesis holds
and the backoff after the failing attempt is the clamped double. -/
theorem C1_backoff_witness :
    (¬ (10 : Int) - sFail1.lastFetch < cfg0.updateTokenIntervalMin) ∧
    (fetchSTSToken cfg0 sFail1 10 .failure).state.lastRetryInterval =
      min (max (sFail1.lastRetryInterval * 2) cfg0.waitIntervalMin)
        cfg0.waitIntervalMax :=
  ⟨by decide, ((C1_backoff cfg0 sFail1 10 (by decide)).1 (by decide)).1⟩

/-- C2 counterexample: after one non-debounced failing fetch from the
zeroed initial state, `consecutiveFailures` is nonzero while
`currentBackoff` is 0, so the claimed equivalence fails in the direction
`currentBackoff == 0 → consecutiveFailures == 0`. -/
theorem C2_counterexample :
    (fetchSTSToken cfg0 initialState 10 .failure).state.lastRetryFailCount ≠ 0 ∧
    (fetchSTSToken cfg0 initialState 10 .failure).state.lastRetryInterval = 0 := by
  decide

/-- C2 (amended): the one-directional invariant `consecutiveFailures == 0 →
currentBackoff == 0` (with the failure count nonnegative) holds in the
initial state and is preserved by every fetch operation — success, failure
or debounce-skip; the converse direction fails after the first failure of
a streak. -/
theorem C2_invariant :
    backoffFailInv initialState ∧
    ∀ (cfg : TokenClientConfig) (c : TokenClientState) (nowTime : Int)
      (res : FetchResult), backoffFailInv c →
        backoffFailInv (fetchSTSToken cfg c nowTime res).state := by
  constructor
  · exact ⟨le_refl 0, fun _ => rfl⟩
  · intro cfg c nowTime res hc
    obtain ⟨hge, himp⟩ := hc
    unfold backoffFailInv fetchSTSToken
    cases res <;> split_ifs <;> refine ⟨?_, fun hzero => ?_⟩ <;>
      simp_all <;> omega

/-- Witness for `C2_invariant`: its preservation part applied to a
non-debounced failing fetch from the initial state. -/
theorem C2_invariant_witness :
    backoffFailInv initialState ∧
    backoffFailInv (fetchSTSToken cfg0 initialState 10 .failure).state :=
  ⟨C2_invariant.1, C2_invariant.2 cfg0 initialState 10 .failure C2_invariant.1⟩

/-- C3 counterexample: a successful non-debounced fetch whose issuer
returns expire time 50 overwrites a stored `nextExpire` of 100 — the code
moves the expiry backwards, contradicting the claim that it never
decreases. -/
theorem C3_counterexample :
    (fetchSTSToken cfg0 sExp 10 (.success "id" "secret" "token" 50)).code = .ok ∧
    (fetchSTSToken cfg0 sExp 10 (.success "id" "secret" "token" 50)).state.nextExpire
      < sExp.nextExpire := by
  decide

/-- C3 (amended): `nextExpire` is unchanged by a failing fetch and by a
debounce-skipped fetch; a non-debounced successful fetch sets it to the
issuer-returned expire time, whatever that is — so it never decreases
provided the returned expiry is no earlier than the stored one, but the
code does not itself enforce monotonicity. -/
theorem C3_expire (cfg : TokenClientConfig) (c : TokenClientState) (nowTime : Int) :
    ((fetchSTSToken cfg c nowTime .failure).state.nextExpire = c.nextExpire) ∧
    (∀ res, nowTime - c.lastFetch < cfg.updateTokenIntervalMin →
      (fetchSTSToken cfg c nowTime res).state.nextExpire = c.nextExpire) ∧
    (∀ kid ksec ktok exp, ¬ nowTime - c.lastFetch < cfg.updateTokenIntervalMin →
      (fetchSTSToken cfg c nowTime (.success kid ksec ktok exp)).state.nextExpire
        = exp) ∧
    (∀ kid ksec ktok exp, c.nextExpire ≤ exp →
      c.nextExpire ≤
        (fetchSTSToken cfg c nowTime (.success kid ksec ktok exp)).state.nextExpire) := by
  refine ⟨?_, fun res hskip => ?_, fun kid ksec ktok exp hrun => ?_,
    fun kid ksec ktok exp hle => ?_⟩
  · unfold fetchSTSToken
    split_ifs <;> simp
  · unfold fetchSTSToken
    rw [if_pos hskip]
  · unfold fetchSTSToken
    rw [if_neg hrun]
  · unfold fetchSTSToken
    split_ifs <;> simp [hle]

/-- Witness for `C3_expire` at `sExp` with a later issuer expiry 200: the
stored expiry does not decrease. -/
theorem C3_expire_witness :
    sExp.nextExpire ≤ (200 : Int) ∧
    sExp.nextExpire ≤
      (fetchSTSToken cfg0 sExp 10 (.success "a" "b" "c" 200)).state.nextExpire :=
  ⟨by decide, (C3_expire cfg0 sExp 10).2.2.2 "a" "b" "c" 200 (by decide)⟩

/-- C4 counterexample: with debounce window 10, a first call at time 9 is
itself debounce-skipped (so `lastFetch` stays 0), and a second call at
time 17 — only 8 apart from the first, less than the window — is NOT
rejected: it invokes the issuer and does not return the high-frequency
error.  The claim quantified over every pair of calls less than
`minFetchInterval` apart is therefore false. -/
theorem C4_counterexample :
    (9 : Int) - initialState.lastFetch < cfg0.updateTokenIntervalMin ∧
    (17 : Int) - 9 < cfg0.updateTokenIntervalMin ∧
    (fetchSTSToken cfg0 (fetchSTSToken cfg0 initialState 9 .failure).state
        17 .failure).code ≠ .highFrequency ∧
    (fetchSTSToken cfg0 (fetchSTSToken cfg0 initialState 9 .failure).state
        17 .failure).issuerCalled = true := by
  decide

/-- A debounce-skipped fetch returns the high-frequency error and leaves
everything untouched (lines 78-79 and 96-98 of the Go source). -/
theorem fetchSTSToken_skip (cfg : TokenClientConfig) (c : TokenClientState)
    (t : Int) (res : FetchResult)
    (h : t - c.lastFetch < cfg.updateTokenIntervalMin) :
    fetchSTSToken cfg c t res =
      { state := c, code := .highFrequency, issuerCalled := false,
        sleepTime := 0 } := by
  unfold fetchSTSToken
  rw [if_pos h]

/-- After a non-debounced fetch at time `t`, `lastFetch = t` whatever the
issuer outcome. -/
theorem lastFetch_after_run (cfg : TokenClientConfig) (c : TokenClientState)
    (t : Int) (res : FetchResult)
    (hrun : ¬ t - c.lastFetch < cfg.updateTokenIntervalMin) :
    (fetchSTSToken cfg c t res).state.lastFetch = t := by
  unfold fetchSTSToken
  rw [if_neg hrun]
  cases res <;> split_ifs <;> simp

/-- C4 (amended): if the first of the two calls is not itself
debounce-skipped (so it records `lastFetchAt`), then a second call issued
less than `minFetchInterval` after it returns the high-frequency error,
does not invoke the issuer, does not sleep, and leaves the entire state —
including the underlying client's credential — unchanged. -/
theorem C4_debounce (cfg : TokenClientConfig) (c : TokenClientState)
    (t1 t2 : Int) (res1 res2 : FetchResult)
    (h1 : ¬ t1 - c.lastFetch < cfg.updateTokenIntervalMin)
    (h2 : t2 - t1 < cfg.updateTokenIntervalMin) :
    fetchSTSToken cfg (fetchSTSToken cfg c t1 res1).state t2 res2 =
      { state := (fetchSTSToken cfg c t1 res1).state, code := .highFrequency,
        issuerCalled := false, sleepTime := 0 } := by
  apply fetchSTSToken_skip
  rw [lastFetch_after_run cfg c t1 res1 h1]
  exact h2

/-- Witness for `C4_debounce`: first call at 10 (not skipped), second call
at 17 under `cfg0`. -/
theorem C4_debounce_witness :
    (¬ (10 : Int) - initialState.lastFetch < cfg0.updateTokenIntervalMin) ∧
    ((17 : Int) - 10 < cfg0.updateTokenIntervalMin) ∧
    fetchSTSToken cfg0 (fetchSTSToken cfg0 initialState 10 .failure).state
        17 .failure =
      { state := (fetchSTSToken cfg0 initialState 10 .failure).state,
        code := .highFrequency, issuerCalled := false, sleepTime := 0 } :=
  ⟨by decide, by decide,
    C4_debounce cfg0 initialState 10 17 .failure .failure (by decide) (by decide)⟩

/-- Sleep-interval computation of `flushSTSToken` (lines 35-45 of the Go
source) on `t = nextExpire - now` in nanoseconds: below one minute a fixed
30 seconds, below ten minutes `t / 10 * 7`, below one hour `t / 10 * 6`,
otherwise `t / 10 * 5`, each with Go's integer `time.Duration` division. -/
def flushSleepInterval (t : Int) : Int :=
  if t < minute then 30 * second
  else if t < 10 * minute then t / 10 * 7
  else if t < hour then t / 10 * 6
  else t / 10 * 5

/-- C8 counterexample: at `t` one minute plus 19 nanoseconds — inside the
claimed 70% tier — the computed interval is `t / 10 * 7` with truncating
division, which is not 70% of `t`: ten times the computed interval differs
from seven times `t`. -/
theorem C8_counterexample :
    minute ≤ (60000000019 : Int) ∧ (60000000019 : Int) < 10 * minute ∧
    10 * flushSleepInterval 60000000019 ≠ 7 * 60000000019 := by
  decide

/-- C8 (amended): the tiers are computed with truncating nanosecond
division — fixed 30 seconds below one minute, and `t / 10 * 7`,
`t / 10 * 6`, `t / 10 * 5` in the three higher tiers, which equal exactly
70%, 60% and 50% of `t` whenever `t` is a multiple of 10 nanoseconds; in
particular five minutes maps to 3.5 minutes and 30 seconds maps to
30 seconds. -/
theorem C8_sleep_tiers (t : Int) :
    (t < minute → flushSleepInterval t = 30 * second) ∧
    (minute ≤ t ∧ t < 10 * minute ∧ 10 ∣ t →
      10 * flushSleepInterval t = 7 * t) ∧
    (10 * minute ≤ t ∧ t < hour ∧ 10 ∣ t →
      10 * flushSleepInterval t = 6 * t) ∧
    (hour ≤ t ∧ 10 ∣ t → 10 * flushSleepInterval t = 5 * t) := by
  unfold flushSleepInterval hour minute second
  norm_num
  refine ⟨fun h => ?_, fun h => ?_, fun h => ?_, fun h => ?_⟩ <;>
    split_ifs <;> omega

/-- Witness for `C8_sleep_tiers` at the two intervals named by the spec:
five minutes (10 times the interval is 7 times `t`, i.e. 3.5 minutes) and
30 seconds (fixed 30 seconds). -/
theorem C8_sleep_tiers_witness :
    (minute ≤ 5 * minute ∧ 5 * minute < 10 * minute ∧ 10 ∣ 5 * minute) ∧
    10 * flushSleepInterval (5 * minute) = 7 * (5 * minute) ∧
    (30 * second < minute) ∧
    flushSleepInterval (30 * second) = 30 * second :=
  ⟨⟨by decide, by decide, by decide⟩,
    (C8_sleep_tiers (5 * minute)).2.1 ⟨by decide, by decide, by decide⟩,
    by decide, (C8_sleep_tiers (30 * second)).1 (by decide)⟩

/-- The two channels the `select` of `flushSTSToken` can wake on: the
`time.After` trigger or the shutdown channel. -/
inductive WakeEvent where
  | timer
  | shutdown
  deriving DecidableEq

/-- Input of one iteration of the `flushSTSToken` loop: which channel the
`select` received on, the value of `closeFlag` at the check after the
fetch, and whether the fetch (if performed) returns an error. -/
structure FlushIterInput where
  ev : WakeEvent
  closeFlag : Bool
  fetchFails : Bool
  deriving DecidableEq

/-- Why the `flushSTSToken` loop returned. -/
inductive FlushStop where
  | shutdownSignal
  | closeFlagSet
  deriving DecidableEq

/-- One iteration of the `flushSTSToken` loop body (lines 50-68 of the Go
source) after the sleep interval is computed: on the shutdown channel the
loop returns at once without fetching; on the timer it runs
`fetchSTSToken` (its error only logged), then returns if `closeFlag` is
set.  The result is the stop reason (or `none` to keep looping) and
whether a fetch was performed. -/
def flushIter (inp : FlushIterInput) : Option FlushStop × Bool :=
  match inp.ev with
  | .shutdown => (some .shutdownSignal, false)
  | .timer => (if inp.closeFlag then some .closeFlagSet else none, true)

/-- The `flushSTSToken` loop over a finite trace of iteration inputs:
returns the stop reason (`none` if the loop is still running when the
trace ends) and the number of fetch attempts performed. -/
def flushRun : List FlushIterInput → Option FlushStop × Nat
  | [] => (none, 0)
  | inp :: rest =>
    match flushIter inp with
    | (some e, fetched) => (some e, if fetched then 1 else 0)
    | (none, fetched) =>
        ((flushRun rest).1, (if fetched then 1 else 0) + (flushRun rest).2)

/-- C9: the refresh loop keeps looping exactly when the timer fired and
the close flag is unset — so it never stops because a fetch failed, and
the iteration outcome is independent of the fetch result; receiving the
shutdown signal stops it in that same wait-cycle with no further fetch
attempt, whatever the rest of the trace would have been. -/
theorem C9_termination :
    (∀ inp : FlushIterInput,
      ((flushIter inp).1 = none ↔ inp.ev = .timer ∧ inp.closeFlag = false)) ∧
    (∀ (inp : FlushIterInput) (b : Bool),
      flushIter inp = flushIter { inp with fetchFails := b }) ∧
    (∀ inp : FlushIterInput, inp.ev = .shutdown →
      flushIter inp = (some .shutdownSignal, false)) ∧
    (∀ (l : List FlushIterInput) (inp : FlushIterInput), inp.ev = .shutdown →
      flushRun (inp :: l) = (some .shutdownSignal, 0)) := by
  refine ⟨fun inp => ?_, fun inp b => ?_, fun inp hsd => ?_, fun l inp hsd => ?_⟩
  · obtain ⟨ev, cf, ff⟩ := inp
    cases ev <;> cases cf <;> simp [flushIter]
  · obtain ⟨ev, cf, ff⟩ := inp
    cases ev <;> simp [flushIter]
  · obtain ⟨ev, cf, ff⟩ := inp
    cases hsd
    simp [flushIter]
  · obtain ⟨ev, cf, ff⟩ := inp
    cases hsd
    simp [flushRun, flushIter]

/-- Witness for `C9_termination`: a shutdown reception with the close flag
unset and a failing fetch pending stops a trace immediately with zero
fetches. -/
theorem C9_termination_witness :
    (FlushIterInput.mk .shutdown false true).ev = .shutdown ∧
    flushRun [FlushIterInput.mk .shutdown false true,
      FlushIterInput.mk .timer false true] = (some .shutdownSignal, 0) :=
  ⟨rfl, C9_termination.2.2.2 [FlushIterInput.mk .timer false true]
    (FlushIterInput.mk .shutdown false true) rfl⟩

/-- Final outcome of the retry loop wrapping an operation (`CreateProject`
and every other forwarded method): the returned result and error, the
number of invocations of the underlying operation, and the number of
`fetchSTSToken` calls made by `processError`. -/
structure RetryOutcome (α ε : Type) where
  result : α
  err : Option ε
  opCalls : Nat
  fetchCalls : Nat
  deriving DecidableEq

/-- The loop `for i := 0; i < maxTryTimes; i++ { res, err = op(); if
!processError(err) { return } }` with `processError` inlined (lines
124-138 and 173-181 of the Go source), running on oracles: `op k` is the
result of the k-th invocation of the underlying operation, `fetch k` tells
whether the k-th `fetchSTSToken` call succeeds, and `isTokenErr` is
`IsTokenError`.  Arguments: remaining tries, operations invoked so far,
fetches made so far, and the current values of the Go result variables. -/
def retryRun {α ε : Type} (isTokenErr : ε → Bool) (op : Nat → α × Option ε)
    (fetch : Nat → Bool) :
    Nat → Nat → Nat → α → Option ε → RetryOutcome α ε
  | 0, i, j, last, lastErr =>
    { result := last, err := lastErr, opCalls := i, fetchCalls := j }
  | tries + 1, i, j, _, _ =>
    match op i with
    | (r, none) => { result := r, err := none, opCalls := i + 1, fetchCalls := j }
    | (r, some e) =>
      if isTokenErr e then
        if fetch j then
          retryRun isTokenErr op fetch tries (i + 1) (j + 1) r (some e)
        else { result := r, err := some e, opCalls := i + 1, fetchCalls := j + 1 }
      else { result := r, err := some e, opCalls := i + 1, fetchCalls := j }

/-- A forwarded method of `TokenAutoUpdateClient`: run the retry loop
`maxTryTimes` times (zero iterations when `maxTryTimes ≤ 0`) starting from
the Go zero values of the named results (`zero`, error `nil`). -/
def withRetry {α ε : Type} (maxTryTimes : Int) (zero : α)
    (isTokenErr : ε → Bool) (op : Nat → α × Option ε) (fetch : Nat → Bool) :
    RetryOutcome α ε :=
  retryRun isTokenErr op fetch maxTryTimes.toNat 0 0 zero none

/-- C5: if the first invocation of the operation returns a token
(auth-invalid) error and the fetch it triggers fails — for any reason,
including the high-frequency debounce — the wrapper stops immediately and
returns that operation error (not the fetch error), with the operation
invoked exactly once and the fetch tried exactly once. -/
theorem C5_fetch_fail_stops {α ε : Type} (isTokenErr : ε → Bool)
    (op : Nat → α × Option ε) (fetch : Nat → Bool) (maxTryTimes : Int)
    (zero r : α) (e : ε) (hmax : 1 ≤ maxTryTimes) (hop : op 0 = (r, some e))
    (htok : isTokenErr e = true) (hfetch : fetch 0 = false) :
    withRetry maxTryTimes zero isTokenErr op fetch =
      { result := r, err := some e, opCalls := 1, fetchCalls := 1 } := by
  unfold withRetry
  obtain ⟨n, hn⟩ : ∃ n, maxTryTimes.toNat = n + 1 :=
    ⟨maxTryTimes.toNat - 1, by omega⟩
  rw [hn]
  simp [retryRun, hop, htok, hfetch]

/-- Witness for `C5_fetch_fail_stops` with `maxTryTimes = 3`, an operation
always returning token error `true` with result 7, and a fetch that always
fails. -/
theorem C5_fetch_fail_stops_witness :
    (1 : Int) ≤ 3 ∧
    withRetry (α := Nat) (ε := Bool) 3 0 (fun b => b) (fun _ => (7, some true))
        (fun _ => false) =
      { result := 7, err := some true, opCalls := 1, fetchCalls := 1 } :=
  ⟨by decide, C5_fetch_fail_stops (fun b => b) (fun _ => (7, some true))
    (fun _ => false) 3 0 7 true (by decide) rfl rfl rfl⟩

/-- C6: if the first invocation of the operation returns an error that is
not a token error, the wrapper returns that result and error immediately:
the operation is invoked exactly once and no fetch is performed. -/
theorem C6_nonauth_once {α ε : Type} (isTokenErr : ε → Bool)
    (op : Nat → α × Option ε) (fetch : Nat → Bool) (maxTryTimes : Int)
    (zero r : α) (e : ε) (hmax : 1 ≤ maxTryTimes) (hop : op 0 = (r, some e))
    (htok : isTokenErr e = false) :
    withRetry maxTryTimes zero isTokenErr op fetch =
      { result := r, err := some e, opCalls := 1, fetchCalls := 0 } := by
  unfold withRetry
  obtain ⟨n, hn⟩ : ∃ n, maxTryTimes.toNat = n + 1 :=
    ⟨maxTryTimes.toNat - 1, by omega⟩
  rw [hn]
  simp [retryRun, hop, htok]

/-- Witness for `C6_nonauth_once` with `maxTryTimes = 3` and an operation
always returning the non-token error `false` with result 7. -/
theorem C6_nonauth_once_witness :
    (1 : Int) ≤ 3 ∧
    withRetry (α := Nat) (ε := Bool) 3 0 (fun b => b) (fun _ => (7, some false))
        (fun _ => true) =
      { result := 7, err := some false, opCalls := 1, fetchCalls := 0 } :=
  ⟨by decide, C6_nonauth_once (fun b => b) (fun _ => (7, some false))
    (fun _ => true) 3 0 7 false (by decide) rfl rfl⟩

/-- C7: with `maxTryTimes = 3`, an operation returning token errors on its
first two invocations and succeeding on the third, and a fetch that
succeeds both times, the wrapper returns the third invocation's result
with a `nil` error, the operation invoked exactly 3 times and the fetch
exactly 2 times. -/
theorem C7_retry_success {α ε : Type} (isTokenErr : ε → Bool)
    (op : Nat → α × Option ε) (fetch : Nat → Bool) (zero a b cc : α)
    (e0 e1 : ε) (h0 : op 0 = (a, some e0)) (h1 : op 1 = (b, some e1))
    (h2 : op 2 = (cc, none)) (ht0 : isTokenErr e0 = true)
    (ht1 : isTokenErr e1 = true) (hf0 : fetch 0 = true)
    (hf1 : fetch 1 = true) :
    withRetry 3 zero isTokenErr op fetch =
      { result := cc, err := none, opCalls := 3, fetchCalls := 2 } := by
  unfold withRetry
  have h3 : (3 : Int).toNat = 3 := rfl
  rw [h3]
  simp [retryRun, h0, h1, h2, ht0, ht1, hf0, hf1]

/-- Witness for `C7_retry_success`: results 1, 2, 3 with token error
`true` on the first two invocations and an always-succeeding fetch. -/
theorem C7_retry_success_witness :
    withRetry (α := Nat) (ε := Bool) 3 0 (fun b => b)
        (fun k => if k < 2 then (k + 1, some true) else (3, none))
        (fun _ => true) =
      { result := 3, err := none, opCalls := 3, fetchCalls := 2 } :=
  C7_retry_success (fun b => b)
    (fun k => if k < 2 then (k + 1, some true) else (3, none))
    (fun _ => true) 0 1 2 3 true true rfl rfl rfl rfl rfl rfl rfl

/-- C10: when `maxTryTimes ≤ 0` the `for` loop body never runs: the
operation is never invoked, no fetch is performed, and the wrapper returns
the Go zero values of its named results — `zero` and a `nil` error. -/
theorem C10_nonpositive_noop {α ε : Type} (isTokenErr : ε → Bool)
    (op : Nat → α × Option ε) (fetch : Nat → Bool) (maxTryTimes : Int)
    (zero : α) (hmax : maxTryTimes ≤ 0) :
    withRetry maxTryTimes zero isTokenErr op fetch =
      { result := zero, err := none, opCalls := 0, fetchCalls := 0 } := by
  unfold withRetry
  have hz : maxTryTimes.toNat = 0 := by omega
  rw [hz]
  rfl

/-- Witness for `C10_nonpositive_noop` at `maxTryTimes = 0` with an
operation that would return a token error if it were ever invoked. -/
theorem C10_nonpositive_noop_witness :
    (0 : Int) ≤ 0 ∧
    withRetry (α := Nat) (ε := Bool) 0 0 (fun b => b) (fun _ => (7, some true))
        (fun _ => true) =
      { result := 0, err := none, opCalls := 0, fetchCalls := 0 } :=
  ⟨by decide, C10_nonpositive_noop (fun b => b) (fun _ => (7, some true))
    (fun _ => true) 0 0 (by decide)⟩

end Sls
